import Mathlib

/-!
# wininput: the native input-injection binding

A shallow embedding of `desktop/native/src/wininput.cc`: the three callbacks
`SetCursorPosWrapped`, `MouseEventWrapped`, `KeybdEventWrapped` and the module
initialiser `Init`.

The callbacks run against two collaborators that are not part of the file:

* the operating system (`SetCursorPos`, `mouse_event`, `keybd_event`), taken as
  a parameter `OS σ` acting on an arbitrary OS state `σ`;
* the Node-API number conversions (`Napi::Number::Int32Value`,
  `Napi::Number::Uint32Value`), modelled after their documented behaviour:
  a JavaScript number is converted as by ECMAScript `ToInt32` / `ToUint32`
  (truncate toward zero, then wrap modulo 2^32; non-finite numbers give 0),
  and a value that is not a number makes the conversion fail with status
  `napi_number_expected`.  What a failed conversion does next depends on how
  node-addon-api is compiled, which is a parameter (`Build`).

A JavaScript number is a finite rational, NaN or an infinity.  Every IEEE-754
double is one of these, so a statement proved for all `JsNumber` holds for all
doubles.
-/

namespace WinInput

/-! ## JavaScript values -/

/-- A JavaScript number: a finite value (every finite double is a rational; the
two zeros are identified), NaN, or one of the infinities. -/
inductive JsNumber where
  | finite (q : ℚ)
  | nan
  | posInf
  | negInf
  deriving DecidableEq

/-- The three native callbacks of the module, as function values. -/
inductive Callback where
  | SetCursorPosWrapped
  | MouseEventWrapped
  | KeybdEventWrapped
  deriving DecidableEq

/-- A JavaScript value as seen by a callback.  `func cb` is the function object
made by `Napi::Function::New(env, cb)`; `object` stands for any other object. -/
inductive JsValue where
  | undefined
  | null
  | boolean (b : Bool)
  | number (n : JsNumber)
  | string (s : String)
  | func (cb : Callback)
  | object (handle : Nat)
  deriving DecidableEq

/-- The JavaScript number with integer value `n`. -/
def JsValue.int (n : Int) : JsValue := .number (.finite (n : ℚ))

/-- A JavaScript exception raised by the binding. `typeError msg` is
`Napi::TypeError::New(env, msg)`; `numberExpected` is the error node-addon-api
creates when a number conversion fails with `napi_number_expected`. -/
inductive JsError where
  | typeError (message : String)
  | numberExpected
  deriving DecidableEq

/-! ## Number conversions -/

/-- Truncation toward zero of a finite number (ECMAScript `truncate`). -/
def truncate (q : ℚ) : Int := Int.tdiv q.num q.den

/-- The result of `napi_get_value_int32` on a number: ECMAScript `ToInt32`. -/
def toInt32 : JsNumber → Int
  | .finite q =>
    let int32bit := truncate q % 2 ^ 32
    if int32bit ≥ 2 ^ 31 then int32bit - 2 ^ 32 else int32bit
  | _ => 0

/-- The result of `napi_get_value_uint32` on a number: ECMAScript `ToUint32`. -/
def toUint32 : JsNumber → Nat
  | .finite q => (truncate q % 2 ^ 32).toNat
  | _ => 0

/-- The conversion `static_cast<BYTE>(u)` of a 32-bit unsigned value. -/
def castBYTE (u : Nat) : Nat := u % 2 ^ 8

/-- The Windows constant `TRUE`. -/
def TRUE : Int := 1

/-! ## The operating system -/

/-- A call of one of the three OS primitives, with the values of the argument
expressions at the call site: `int` values as integers in the signed 32-bit
range, `DWORD` and `BYTE` values as naturals. -/
inductive OsCall where
  | SetCursorPos (X Y : Int)
  | mouse_event (dwFlags : Nat) (dx dy : Int) (dwData : Nat) (dwExtraInfo : Nat)
  | keybd_event (bVk : Nat) (bScan : Nat) (dwFlags : Nat) (dwExtraInfo : Nat)
  deriving DecidableEq

/-- The OS input subsystem over a state `σ`.  `SetCursorPos` answers with a
`BOOL` (an `int`); the two event primitives return nothing. -/
structure OS (σ : Type) where
  SetCursorPos : Int → Int → σ → Int × σ
  mouse_event : Nat → Int → Int → Nat → Nat → σ → σ
  keybd_event : Nat → Nat → Nat → Nat → σ → σ

/-! ## Running a callback -/

/-- How node-addon-api reports a failed Node-API call: by throwing a C++
exception (`NAPI_CPP_EXCEPTIONS`), or by recording a pending JavaScript
exception and returning a zero value (`NAPI_DISABLE_CPP_EXCEPTIONS`). -/
inductive Build where
  | cppExceptions
  | disableCppExceptions
  deriving DecidableEq

/-- The state a callback runs in: the OS state, the OS calls made so far by
this invocation, and the pending JavaScript exception, if any. -/
structure Machine (σ : Type) where
  os : σ
  calls : List OsCall
  pending : Option JsError

/-- The outcome of running a piece of a callback: it runs to its end with a
value, or a C++ exception carrying a JavaScript error leaves the callback. -/
inductive Step (σ α : Type) where
  | normal (a : α) (m : Machine σ)
  | thrown (e : JsError) (m : Machine σ)

/-- A piece of native code. -/
def Native (σ α : Type) : Type := Machine σ → Step σ α

/-- Sequencing: a C++ exception skips the rest. -/
def Native.bind {σ α β : Type} (x : Native σ α) (f : α → Native σ β) : Native σ β :=
  fun m =>
    match x m with
    | .normal a m1 => f a m1
    | .thrown e m1 => .thrown e m1

instance {σ : Type} : Monad (Native σ) where
  pure a := fun m => .normal a m
  bind := Native.bind

/-- The effect of `error.ThrowAsJavaScriptException()`: the error becomes the
pending exception and execution goes on. -/
def ThrowAsJavaScriptException {σ : Type} (e : JsError) : Native σ Unit :=
  fun m => .normal () { m with pending := some e }

/-- A failed number conversion (`NAPI_THROW_IF_FAILED(env, status, 0)`): throw,
or record the pending exception and yield the zero value. -/
def numberExpectedFailure {σ α : Type} (build : Build) (zero : α) : Native σ α :=
  match build with
  | .cppExceptions => fun m => .thrown .numberExpected m
  | .disableCppExceptions => fun m => .normal zero { m with pending := some .numberExpected }

/-- The value of `v.As<Napi::Number>().Int32Value()`; `As` does not check. -/
def Int32Value {σ : Type} (build : Build) (v : JsValue) : Native σ Int :=
  match v with
  | .number n => pure (toInt32 n)
  | _ => numberExpectedFailure build 0

/-- The value of `v.As<Napi::Number>().Uint32Value()`; `As` does not check. -/
def Uint32Value {σ : Type} (build : Build) (v : JsValue) : Native σ Nat :=
  match v with
  | .number n => pure (toUint32 n)
  | _ => numberExpectedFailure build 0

/-- Whether a value is a JavaScript number. -/
def JsValue.isNumber : JsValue → Bool
  | .number _ => true
  | _ => false

/-- The `int` a callback holds after `Int32Value` when it keeps running: the
converted number, or 0 for a value that is not a number. -/
def coerceInt32 : JsValue → Int
  | .number n => toInt32 n
  | _ => 0

/-- The `DWORD` a callback holds after `Uint32Value` when it keeps running: the
converted number, or 0 for a value that is not a number. -/
def coerceUint32 : JsValue → Nat
  | .number n => toUint32 n
  | _ => 0

/-- The argument `info[i]`: `undefined` beyond the supplied arguments. -/
def arg (info : List JsValue) (i : Nat) : JsValue := info.getD i .undefined

/-- The call `SetCursorPos(x, y)`. -/
def callSetCursorPos {σ : Type} (os : OS σ) (x y : Int) : Native σ Int :=
  fun m =>
    let r := os.SetCursorPos x y m.os
    .normal r.1 { m with os := r.2, calls := m.calls ++ [.SetCursorPos x y] }

/-- The call `mouse_event(flag, dx, dy, data, extra)`. -/
def callMouseEvent {σ : Type} (os : OS σ) (flag : Nat) (dx dy : Int) (data extra : Nat) :
    Native σ Unit :=
  fun m =>
    .normal () { m with os := os.mouse_event flag dx dy data extra m.os,
                        calls := m.calls ++ [.mouse_event flag dx dy data extra] }

/-- The call `keybd_event(vk, scan, flags, extra)`. -/
def callKeybdEvent {σ : Type} (os : OS σ) (vk scan flags extra : Nat) : Native σ Unit :=
  fun m =>
    .normal () { m with os := os.keybd_event vk scan flags extra m.os,
                        calls := m.calls ++ [.keybd_event vk scan flags extra] }

/-! ## The callbacks -/

/-- The callback behind `setCursorPos`. -/
def SetCursorPosWrapped {σ : Type} (build : Build) (os : OS σ) (info : List JsValue) :
    Native σ JsValue :=
  if info.length < 2 then do
    ThrowAsJavaScriptException (.typeError "Expected x and y")
    return .null
  else do
    let x ← Int32Value build (arg info 0)
    let y ← Int32Value build (arg info 1)
    let result ← callSetCursorPos os x y
    return .boolean (result == TRUE)

/-- The callback behind `mouseEvent`. -/
def MouseEventWrapped {σ : Type} (build : Build) (os : OS σ) (info : List JsValue) :
    Native σ JsValue :=
  if info.length < 4 then do
    ThrowAsJavaScriptException (.typeError "Expected flag, dx, dy, data")
    return .null
  else do
    let flag ← Uint32Value build (arg info 0)
    let dx ← Int32Value build (arg info 1)
    let dy ← Int32Value build (arg info 2)
    let data ← Uint32Value build (arg info 3)
    callMouseEvent os flag dx dy data 0
    return .undefined

/-- The callback behind `keybdEvent`. -/
def KeybdEventWrapped {σ : Type} (build : Build) (os : OS σ) (info : List JsValue) :
    Native σ JsValue :=
  if info.length < 2 then do
    ThrowAsJavaScriptException (.typeError "Expected vk and flags")
    return .null
  else do
    let vk := castBYTE (← Uint32Value build (arg info 0))
    let flags ← Uint32Value build (arg info 1)
    callKeybdEvent os vk 0 flags 0
    return .undefined

/-- The native code of a callback. -/
def Callback.native {σ : Type} (cb : Callback) (build : Build) (os : OS σ)
    (info : List JsValue) : Native σ JsValue :=
  match cb with
  | .SetCursorPosWrapped => WinInput.SetCursorPosWrapped build os info
  | .MouseEventWrapped => WinInput.MouseEventWrapped build os info
  | .KeybdEventWrapped => WinInput.KeybdEventWrapped build os info

/-! ## What the JavaScript caller observes -/

/-- How a call ends for its JavaScript caller. -/
inductive Completion where
  | returns (v : JsValue)
  | throws (e : JsError)
  deriving DecidableEq

/-- The result of one invocation: how it completes, the OS calls it made, in
order, and the OS state it leaves. -/
structure Invocation (σ : Type) where
  completion : Completion
  calls : List OsCall
  os : σ

/-- One invocation of a callback from JavaScript, starting with no OS call made
and no pending exception.  A C++ exception that leaves the callback is rethrown
into JavaScript; a pending exception replaces the returned value. -/
def invoke {σ : Type} (f : Native σ JsValue) (s : σ) : Invocation σ :=
  match f { os := s, calls := [], pending := none } with
  | .normal v m =>
    { completion := match m.pending with
        | some e => .throws e
        | none => .returns v,
      calls := m.calls, os := m.os }
  | .thrown e m => { completion := .throws e, calls := m.calls, os := m.os }

/-- The entry point `setCursorPos`. -/
def setCursorPos {σ : Type} (build : Build) (os : OS σ) (info : List JsValue) (s : σ) :
    Invocation σ :=
  invoke (SetCursorPosWrapped build os info) s

/-- The entry point `mouseEvent`. -/
def mouseEvent {σ : Type} (build : Build) (os : OS σ) (info : List JsValue) (s : σ) :
    Invocation σ :=
  invoke (MouseEventWrapped build os info) s

/-- The entry point `keybdEvent`. -/
def keybdEvent {σ : Type} (build : Build) (os : OS σ) (info : List JsValue) (s : σ) :
    Invocation σ :=
  invoke (KeybdEventWrapped build os info) s

/-! ## Module initialisation -/

/-- A JavaScript object as its list of own properties, in insertion order. -/
abbrev JsObject := List (String × JsValue)

/-- The value of property `key`, if the object has it. -/
def JsObject.Get (o : JsObject) (key : String) : Option JsValue :=
  (o.find? (fun p => p.1 == key)).map (fun p => p.2)

/-- The effect of `o.Set(key, v)`: overwrite the property, or add it at the end. -/
def JsObject.Set (o : JsObject) (key : String) (v : JsValue) : JsObject :=
  if o.any (fun p => p.1 == key) then
    o.map (fun p => if p.1 == key then (key, v) else p)
  else o ++ [(key, v)]

/-- The names of the own properties. -/
def JsObject.keys (o : JsObject) : List String := o.map (fun p => p.1)

/-- The call `o[name](...info)` from JavaScript, when the property is one of the
functions of the module. -/
def JsObject.call {σ : Type} (o : JsObject) (name : String) (build : Build) (os : OS σ)
    (info : List JsValue) (s : σ) : Option (Invocation σ) :=
  match o.Get name with
  | some (.func cb) => some (invoke (cb.native build os info) s)
  | _ => none

/-- The module initialiser. -/
def Init (exports : JsObject) : JsObject :=
  let e1 := exports.Set "setCursorPos" (.func .SetCursorPosWrapped)
  let e2 := e1.Set "mouseEvent" (.func .MouseEventWrapped)
  let e3 := e2.Set "keybdEvent" (.func .KeybdEventWrapped)
  e3

/-! ## A fake OS for tests -/

/-- The state of the fake OS: the cursor position. -/
structure FakeState where
  cursor : Int × Int
  deriving DecidableEq

/-- A fake OS whose `SetCursorPos` stores the position and reports success with
`TRUE`; the event primitives leave the cursor where it is. -/
def fakeOS : OS FakeState where
  SetCursorPos := fun x y _ => (TRUE, { cursor := (x, y) })
  mouse_event := fun _ _ _ _ _ s => s
  keybd_event := fun _ _ _ _ s => s

/-- The query of the cursor position on the fake OS. -/
def FakeState.GetCursorPos (s : FakeState) : Int × Int := s.cursor

/-- An OS whose `SetCursorPos` always answers `r` and which keeps no state. -/
def constOS (r : Int) : OS Unit where
  SetCursorPos := fun _ _ _ => (r, ())
  mouse_event := fun _ _ _ _ _ _ => ()
  keybd_event := fun _ _ _ _ _ => ()

/-! ## Conversions of integers -/

theorem truncate_intCast (n : Int) : truncate (n : ℚ) = n := by
  simp [truncate]

/-- `ToInt32` of an integer is its signed 32-bit wrap-around. -/
theorem toInt32_int (n : Int) :
    toInt32 (.finite (n : ℚ)) = (n + 2 ^ 31) % 2 ^ 32 - 2 ^ 31 := by
  simp only [toInt32, truncate_intCast]
  split <;> omega

/-- `ToUint32` of an integer is its residue modulo 2^32. -/
theorem toUint32_int (n : Int) : toUint32 (.finite (n : ℚ)) = (n % 2 ^ 32).toNat := by
  simp [toUint32, truncate_intCast]

theorem toInt32_int_of_range (n : Int) (h1 : -2 ^ 31 ≤ n) (h2 : n < 2 ^ 31) :
    toInt32 (.finite (n : ℚ)) = n := by
  rw [toInt32_int]; omega

theorem toUint32_int_of_range (n : Int) (h1 : 0 ≤ n) (h2 : n < 2 ^ 32) :
    toUint32 (.finite (n : ℚ)) = n.toNat := by
  rw [toUint32_int]; congr 1; omega

theorem castBYTE_toUint32_int (n : Int) :
    castBYTE (toUint32 (.finite (n : ℚ))) = (n % 256).toNat := by
  rw [toUint32_int, castBYTE]; omega

/-- Every converted `int` is in the signed 32-bit range. -/
theorem toInt32_range (n : JsNumber) : -2 ^ 31 ≤ toInt32 n ∧ toInt32 n < 2 ^ 31 := by
  cases n with
  | finite q =>
    simp only [toInt32]
    split <;> omega
  | nan => simp [toInt32]
  | posInf => simp [toInt32]
  | negInf => simp [toInt32]

/-- Every converted `DWORD` is below 2^32. -/
theorem toUint32_lt (n : JsNumber) : toUint32 n < 2 ^ 32 := by
  cases n with
  | finite q =>
    simp only [toUint32]
    omega
  | nan => simp [toUint32]
  | posInf => simp [toUint32]
  | negInf => simp [toUint32]

/-- Every `BYTE` is below 256. -/
theorem castBYTE_lt (u : Nat) : castBYTE u < 256 := by
  unfold castBYTE
  omega

/-! ## The callbacks on numbers -/

theorem setCursorPos_numbers {σ : Type} (build : Build) (os : OS σ) (s : σ)
    (a b : JsNumber) (rest : List JsValue) :
    setCursorPos build os (.number a :: .number b :: rest) s =
      { completion := .returns (.boolean ((os.SetCursorPos (toInt32 a) (toInt32 b) s).1 == TRUE)),
        calls := [.SetCursorPos (toInt32 a) (toInt32 b)],
        os := (os.SetCursorPos (toInt32 a) (toInt32 b) s).2 } := by
  have h : ¬ (JsValue.number a :: JsValue.number b :: rest).length < 2 := by simp
  simp only [setCursorPos, SetCursorPosWrapped, if_neg h]
  simp [invoke, arg, Int32Value, callSetCursorPos, Bind.bind, Native.bind, Pure.pure]

theorem mouseEvent_numbers {σ : Type} (build : Build) (os : OS σ) (s : σ)
    (a b c d : JsNumber) (rest : List JsValue) :
    mouseEvent build os (.number a :: .number b :: .number c :: .number d :: rest) s =
      { completion := .returns .undefined,
        calls := [.mouse_event (toUint32 a) (toInt32 b) (toInt32 c) (toUint32 d) 0],
        os := os.mouse_event (toUint32 a) (toInt32 b) (toInt32 c) (toUint32 d) 0 s } := by
  have h : ¬ (JsValue.number a :: JsValue.number b :: JsValue.number c :: JsValue.number d
      :: rest).length < 4 := by simp
  simp only [mouseEvent, MouseEventWrapped, if_neg h]
  simp [invoke, arg, Int32Value, Uint32Value, callMouseEvent, Bind.bind, Native.bind, Pure.pure]

theorem keybdEvent_numbers {σ : Type} (build : Build) (os : OS σ) (s : σ)
    (a b : JsNumber) (rest : List JsValue) :
    keybdEvent build os (.number a :: .number b :: rest) s =
      { completion := .returns .undefined,
        calls := [.keybd_event (castBYTE (toUint32 a)) 0 (toUint32 b) 0],
        os := os.keybd_event (castBYTE (toUint32 a)) 0 (toUint32 b) 0 s } := by
  have h : ¬ (JsValue.number a :: JsValue.number b :: rest).length < 2 := by simp
  simp only [keybdEvent, KeybdEventWrapped, if_neg h]
  simp [invoke, arg, Int32Value, Uint32Value, callKeybdEvent, Bind.bind, Native.bind, Pure.pure]

/-! ## Too few arguments -/

theorem setCursorPos_too_few {σ : Type} (build : Build) (os : OS σ) (s : σ)
    (info : List JsValue) (h : info.length < 2) :
    setCursorPos build os info s =
      { completion := .throws (.typeError "Expected x and y"), calls := [], os := s } := by
  simp only [setCursorPos, SetCursorPosWrapped, if_pos h]
  simp [invoke, ThrowAsJavaScriptException, Bind.bind, Native.bind, Pure.pure]

theorem mouseEvent_too_few {σ : Type} (build : Build) (os : OS σ) (s : σ)
    (info : List JsValue) (h : info.length < 4) :
    mouseEvent build os info s =
      { completion := .throws (.typeError "Expected flag, dx, dy, data"), calls := [],
        os := s } := by
  simp only [mouseEvent, MouseEventWrapped, if_pos h]
  simp [invoke, ThrowAsJavaScriptException, Bind.bind, Native.bind, Pure.pure]

theorem keybdEvent_too_few {σ : Type} (build : Build) (os : OS σ) (s : σ)
    (info : List JsValue) (h : info.length < 2) :
    keybdEvent build os info s =
      { completion := .throws (.typeError "Expected vk and flags"), calls := [], os := s } := by
  simp only [keybdEvent, KeybdEventWrapped, if_pos h]
  simp [invoke, ThrowAsJavaScriptException, Bind.bind, Native.bind, Pure.pure]

/-- C1: each entry point, called with fewer arguments than it requires (2 for
setCursorPos and keybdEvent, 4 for mouseEvent), ends by throwing the TypeError
that carries its message, the one argument error the binding raises itself,
and makes no OS call: the trace is empty and the OS state is the one it
started from. -/
theorem too_few_arguments_raise_without_os_call {σ : Type} (build : Build) (os : OS σ)
    (s : σ) (info : List JsValue) :
    (info.length < 2 → setCursorPos build os info s =
      { completion := .throws (.typeError "Expected x and y"), calls := [], os := s }) ∧
    (info.length < 4 → mouseEvent build os info s =
      { completion := .throws (.typeError "Expected flag, dx, dy, data"), calls := [],
        os := s }) ∧
    (info.length < 2 → keybdEvent build os info s =
      { completion := .throws (.typeError "Expected vk and flags"), calls := [], os := s }) :=
  ⟨setCursorPos_too_few build os s info, mouseEvent_too_few build os s info,
    keybdEvent_too_few build os s info⟩

/-- C1 at concrete calls: one argument to setCursorPos, three to mouseEvent,
none to keybdEvent. -/
theorem too_few_arguments_raise_without_os_call_witness :
    setCursorPos .cppExceptions (constOS 1) [.int 7] () =
      { completion := .throws (.typeError "Expected x and y"), calls := [], os := () } ∧
    mouseEvent .disableCppExceptions (constOS 1) [.int 1, .int 2, .int 3] () =
      { completion := .throws (.typeError "Expected flag, dx, dy, data"), calls := [],
        os := () } ∧
    keybdEvent .cppExceptions (constOS 1) [] () =
      { completion := .throws (.typeError "Expected vk and flags"), calls := [], os := () } :=
  ⟨(too_few_arguments_raise_without_os_call .cppExceptions (constOS 1) () [.int 7]).1
      (by decide),
   (too_few_arguments_raise_without_os_call .disableCppExceptions (constOS 1) ()
      [.int 1, .int 2, .int 3]).2.1 (by decide),
   (too_few_arguments_raise_without_os_call .cppExceptions (constOS 1) () []).2.2
      (by decide)⟩

/-! ## The result of setCursorPos -/

/-- The boolean setCursorPos returns is the comparison of the OS answer with
`TRUE`: true exactly when the `BOOL` is 1. -/
theorem setCursorPos_completion {σ : Type} (build : Build) (os : OS σ) (s : σ)
    (a b : JsNumber) (rest : List JsValue) :
    (setCursorPos build os (.number a :: .number b :: rest) s).completion =
      .returns (.boolean (decide ((os.SetCursorPos (toInt32 a) (toInt32 b) s).1 = 1))) := by
  rw [setCursorPos_numbers]
  rfl

/-- C2 at the failing input: the OS answers setCursorPos(100, 200) with the
non-zero `BOOL` 2, which by the OS convention reports success, and setCursorPos
returns false, in either build, without raising. -/
theorem setCursorPos_false_on_nonzero_BOOL_two :
    (setCursorPos .cppExceptions (constOS 2) [.int 100, .int 200] ()).completion =
      .returns (.boolean false) ∧
    (setCursorPos .disableCppExceptions (constOS 2) [.int 100, .int 200] ()).completion =
      .returns (.boolean false) := by
  constructor <;>
  · simp only [JsValue.int]
    rw [setCursorPos_completion]
    simp [constOS]

/-! ## Arguments as they reach the OS -/

/-- C3: for every integer virtualKeyCode, negative or beyond 255 included,
keybdEvent calls keybd_event with the key code virtualKeyCode mod 256 (its low
8 bits, a value in 0..255); a key code already in 0..255 is passed unchanged. -/
theorem keybdEvent_key_code_low_8_bits {σ : Type} (build : Build) (os : OS σ) (s : σ)
    (virtualKeyCode : Int) (flags : JsNumber) (rest : List JsValue) :
    (keybdEvent build os (.int virtualKeyCode :: .number flags :: rest) s).calls =
      [.keybd_event (virtualKeyCode % 256).toNat 0 (toUint32 flags) 0] ∧
    (0 ≤ virtualKeyCode → virtualKeyCode ≤ 255 →
      (keybdEvent build os (.int virtualKeyCode :: .number flags :: rest) s).calls =
        [.keybd_event virtualKeyCode.toNat 0 (toUint32 flags) 0]) := by
  simp only [JsValue.int]
  rw [keybdEvent_numbers, castBYTE_toUint32_int]
  refine ⟨rfl, fun h1 h2 => ?_⟩
  have h : virtualKeyCode % 256 = virtualKeyCode := by omega
  simp only [h]

/-- C3 at concrete calls: key code 65 is passed as 65, and 321 = 256 + 65 as 65
too, while -1 is passed as 255. -/
theorem keybdEvent_key_code_low_8_bits_witness :
    (keybdEvent .cppExceptions (constOS 1) [.int 65, .number (.finite 0)] ()).calls =
      [.keybd_event 65 0 0 0] ∧
    (keybdEvent .cppExceptions (constOS 1) [.int 321, .number (.finite 2)] ()).calls =
      [.keybd_event 65 0 2 0] ∧
    (keybdEvent .cppExceptions (constOS 1) [.int (-1), .number (.finite 2)] ()).calls =
      [.keybd_event 255 0 2 0] := by
  refine ⟨?_, ?_, ?_⟩
  · have h := (keybdEvent_key_code_low_8_bits .cppExceptions (constOS 1) () 65 (.finite 0)
      []).2 (by decide) (by decide)
    simpa [toUint32, truncate] using h
  · have h := (keybdEvent_key_code_low_8_bits .cppExceptions (constOS 1) () 321 (.finite 2)
      []).1
    simpa [toUint32, truncate] using h
  · have h := (keybdEvent_key_code_low_8_bits .cppExceptions (constOS 1) () (-1) (.finite 2)
      []).1
    simpa [toUint32, truncate] using h

/-- Truncation is the floor of a non-negative number and the ceiling of a
negative one. -/
theorem truncate_eq_floor_or_ceil (q : ℚ) :
    truncate q = if 0 ≤ q then ⌊q⌋ else ⌈q⌉ := by
  unfold truncate
  split
  · rename_i h
    rw [Int.tdiv_eq_ediv (Rat.num_nonneg.mpr h) (Int.ofNat_nonneg _), Rat.floor_def]
  · rename_i h
    have hneg : 0 ≤ (-q).num := by
      rw [Rat.num_nonneg]; linarith [not_le.mp h]
    have h1 : Int.tdiv q.num q.den = -Int.tdiv (-q).num (-q).den := by
      rw [Rat.neg_num, Rat.neg_den, Int.neg_tdiv, neg_neg]
    rw [h1, Int.tdiv_eq_ediv hneg (Int.ofNat_nonneg _), ← Rat.floor_def, Int.floor_neg, neg_neg]

/-- C4: a call that supplies the required number of integer arguments, of any
magnitude, never raises, in either build and whatever the OS answers:
setCursorPos returns a boolean, mouseEvent and keybdEvent return undefined.
Arguments beyond the required ones are ignored. -/
theorem integer_arguments_never_raise {σ : Type} (build : Build) (os : OS σ) (s : σ)
    (x y flags dx dy data virtualKeyCode keyFlags : Int) (rest : List JsValue) :
    (∃ b : Bool, (setCursorPos build os (.int x :: .int y :: rest) s).completion =
      .returns (.boolean b)) ∧
    (mouseEvent build os (.int flags :: .int dx :: .int dy :: .int data :: rest) s).completion =
      .returns .undefined ∧
    (keybdEvent build os (.int virtualKeyCode :: .int keyFlags :: rest) s).completion =
      .returns .undefined := by
  simp only [JsValue.int]
  rw [setCursorPos_numbers, mouseEvent_numbers, keybdEvent_numbers]
  exact ⟨⟨_, rfl⟩, rfl, rfl⟩

/-- C5: for all integers flags, dx, dy, data, mouseEvent makes the one OS call
mouse_event(flags mod 2^32, dx wrapped to signed 32 bits, dy wrapped to signed
32 bits, data mod 2^32, 0), in that order; arguments already in range (flags and
data in 0..2^32-1, dx and dy in -2^31..2^31-1) reach the OS unchanged. -/
theorem mouseEvent_passes_converted_arguments {σ : Type} (build : Build) (os : OS σ) (s : σ)
    (flags dx dy data : Int) (rest : List JsValue) :
    (mouseEvent build os (.int flags :: .int dx :: .int dy :: .int data :: rest) s).calls =
      [.mouse_event (flags % 2 ^ 32).toNat ((dx + 2 ^ 31) % 2 ^ 32 - 2 ^ 31)
        ((dy + 2 ^ 31) % 2 ^ 32 - 2 ^ 31) (data % 2 ^ 32).toNat 0] ∧
    (0 ≤ flags → flags < 2 ^ 32 → -2 ^ 31 ≤ dx → dx < 2 ^ 31 → -2 ^ 31 ≤ dy → dy < 2 ^ 31 →
      0 ≤ data → data < 2 ^ 32 →
      (mouseEvent build os (.int flags :: .int dx :: .int dy :: .int data :: rest) s).calls =
        [.mouse_event flags.toNat dx dy data.toNat 0]) := by
  simp only [JsValue.int]
  rw [mouseEvent_numbers]
  refine ⟨?_, fun hf1 hf2 hx1 hx2 hy1 hy2 hd1 hd2 => ?_⟩
  · simp only [toUint32_int, toInt32_int]
  · simp only [toUint32_int_of_range flags hf1 hf2, toUint32_int_of_range data hd1 hd2,
      toInt32_int_of_range dx hx1 hx2, toInt32_int_of_range dy hy1 hy2]

/-- C5 at a concrete call: a relative move (flag 1) by (-5, 7) reaches the OS as
it is. -/
theorem mouseEvent_passes_converted_arguments_witness :
    (mouseEvent .cppExceptions (constOS 1) [.int 1, .int (-5), .int 7, .int 0] ()).calls =
      [.mouse_event 1 (-5) 7 0 0] :=
  (mouseEvent_passes_converted_arguments .cppExceptions (constOS 1) () 1 (-5) 7 0 []).2
    (by decide) (by decide) (by decide) (by decide) (by decide) (by decide) (by decide)
    (by decide)

/-- C6: for x and y in the signed 32-bit range, setCursorPos(x, y) makes the
one OS call SetCursorPos(x, y), the two values in that order and unchanged;
over the fake OS, which stores the position and reports success, the cursor
position queried afterwards is (x, y) and setCursorPos returns true. -/
theorem setCursorPos_passes_position_unchanged {σ : Type} (build : Build) (os : OS σ) (s : σ)
    (s0 : FakeState) (x y : Int) (rest : List JsValue)
    (hx1 : -2 ^ 31 ≤ x) (hx2 : x < 2 ^ 31) (hy1 : -2 ^ 31 ≤ y) (hy2 : y < 2 ^ 31) :
    (setCursorPos build os (.int x :: .int y :: rest) s).calls = [.SetCursorPos x y] ∧
    (setCursorPos build fakeOS [.int x, .int y] s0).os.GetCursorPos = (x, y) ∧
    (setCursorPos build fakeOS [.int x, .int y] s0).completion = .returns (.boolean true) := by
  simp only [JsValue.int]
  rw [setCursorPos_numbers, setCursorPos_numbers, toInt32_int_of_range x hx1 hx2,
    toInt32_int_of_range y hy1 hy2]
  exact ⟨rfl, rfl, rfl⟩

/-- C6 at the call setCursorPos(100, 200), the cursor starting at (0, 0). -/
theorem setCursorPos_passes_position_unchanged_witness :
    (setCursorPos .cppExceptions fakeOS [.int 100, .int 200] { cursor := (0, 0) }).calls =
      [.SetCursorPos 100 200] ∧
    (setCursorPos .cppExceptions fakeOS [.int 100, .int 200]
      { cursor := (0, 0) }).os.GetCursorPos = (100, 200) ∧
    (setCursorPos .cppExceptions fakeOS [.int 100, .int 200] { cursor := (0, 0) }).completion =
      .returns (.boolean true) :=
  setCursorPos_passes_position_unchanged .cppExceptions fakeOS { cursor := (0, 0) }
    { cursor := (0, 0) } 100 200 [] (by decide) (by decide) (by decide) (by decide)

/-! ## Float and integer arguments -/

theorem toInt32_truncate (q : ℚ) :
    toInt32 (.finite ((truncate q : Int) : ℚ)) = toInt32 (.finite q) := by
  simp only [toInt32, truncate_intCast]

theorem toUint32_truncate (q : ℚ) :
    toUint32 (.finite ((truncate q : Int) : ℚ)) = toUint32 (.finite q) := by
  simp only [toUint32, truncate_intCast]

/-- Replacing one argument by another with the same image under `f` does not
change the image of any `info[i]`. -/
theorem arg_congr {α : Type} (f : JsValue → α) (v w : JsValue) (h : f v = f w)
    (before after : List JsValue) (i : Nat) :
    f (arg (before ++ v :: after) i) = f (arg (before ++ w :: after) i) := by
  induction before generalizing i with
  | nil => cases i <;> simp [arg, h]
  | cons b bs ih =>
    cases i with
    | zero => simp [arg]
    | succ j => simpa [arg] using ih j

/-- C7: at every argument position of every entry point, a finite number q and
the integer n it truncates to (toward zero) give the same invocation: the same
native parameters, the same OS call, the same result. -/
theorem coercion_same_for_float_and_its_truncation {σ : Type} (build : Build) (os : OS σ)
    (s : σ) (q : ℚ) (n : Int) (h : truncate q = n) (before after : List JsValue) :
    setCursorPos build os (before ++ .number (.finite q) :: after) s =
      setCursorPos build os (before ++ .int n :: after) s ∧
    mouseEvent build os (before ++ .number (.finite q) :: after) s =
      mouseEvent build os (before ++ .int n :: after) s ∧
    keybdEvent build os (before ++ .number (.finite q) :: after) s =
      keybdEvent build os (before ++ .int n :: after) s := by
  subst h
  have e32 : ∀ i, @Int32Value σ build (arg (before ++ .number (.finite q) :: after) i) =
      Int32Value build (arg (before ++ .int (truncate q) :: after) i) := fun i =>
    arg_congr _ _ _ (by simp only [Int32Value, JsValue.int, toInt32_truncate]) before after i
  have eu32 : ∀ i, @Uint32Value σ build (arg (before ++ .number (.finite q) :: after) i) =
      Uint32Value build (arg (before ++ .int (truncate q) :: after) i) := fun i =>
    arg_congr _ _ _ (by simp only [Uint32Value, JsValue.int, toUint32_truncate]) before after i
  have hlen : (before ++ JsValue.number (.finite q) :: after).length =
      (before ++ JsValue.int (truncate q) :: after).length := by simp
  refine ⟨?_, ?_, ?_⟩
  · simp only [setCursorPos, SetCursorPosWrapped, e32, hlen]
  · simp only [mouseEvent, MouseEventWrapped, e32, eu32, hlen]
  · simp only [keybdEvent, KeybdEventWrapped, eu32, hlen]

/-- C7 at concrete calls: 3.5 in place of 3 as the x of setCursorPos, -2.5 in
place of -2 as the dy of mouseEvent, 65.75 in place of 65 as the key code. -/
theorem coercion_same_for_float_and_its_truncation_witness :
    setCursorPos .cppExceptions (constOS 1) [.number (.finite (7 / 2)), .int 200] () =
      setCursorPos .cppExceptions (constOS 1) [.int 3, .int 200] () ∧
    mouseEvent .cppExceptions (constOS 1)
        [.int 1, .int 0, .number (.finite (-5 / 2)), .int 0] () =
      mouseEvent .cppExceptions (constOS 1) [.int 1, .int 0, .int (-2), .int 0] () ∧
    keybdEvent .disableCppExceptions (constOS 1) [.number (.finite (263 / 4)), .int 0] () =
      keybdEvent .disableCppExceptions (constOS 1) [.int 65, .int 0] () :=
  ⟨(coercion_same_for_float_and_its_truncation .cppExceptions (constOS 1) () (7 / 2) 3
      (by norm_num [truncate]; rfl) [] [.int 200]).1,
   (coercion_same_for_float_and_its_truncation .cppExceptions (constOS 1) () (-5 / 2) (-2)
      (by norm_num [truncate]; rfl) [.int 1, .int 0] [.int 0]).2.1,
   (coercion_same_for_float_and_its_truncation .disableCppExceptions (constOS 1) () (263 / 4)
      65 (by norm_num [truncate]; rfl) [] [.int 0]).2.2⟩

/-! ## Arguments that are not numbers -/

theorem isNumber_eq_true {v : JsValue} (h : v.isNumber = true) : ∃ n, v = .number n := by
  cases v <;> simp [JsValue.isNumber] at h
  exact ⟨_, rfl⟩

theorem Int32Value_eq {σ : Type} (build : Build) (v : JsValue) :
    @Int32Value σ build v =
      if v.isNumber then pure (coerceInt32 v) else numberExpectedFailure build 0 := by
  cases v <;> rfl

theorem Uint32Value_eq {σ : Type} (build : Build) (v : JsValue) :
    @Uint32Value σ build v =
      if v.isNumber then pure (coerceUint32 v) else numberExpectedFailure build 0 := by
  cases v <;> rfl

theorem coerceInt32_of_not_number {v : JsValue} (h : v.isNumber = false) :
    coerceInt32 v = 0 := by
  cases v <;> simp [JsValue.isNumber] at h <;> rfl

theorem coerceUint32_of_not_number {v : JsValue} (h : v.isNumber = false) :
    coerceUint32 v = 0 := by
  cases v <;> simp [JsValue.isNumber] at h <;> rfl

/-- With C++ exceptions disabled, setCursorPos calls the OS whatever the two
arguments are, with 0 for one that is not a number. -/
theorem setCursorPos_disable {σ : Type} (os : OS σ) (s : σ) (a b : JsValue)
    (rest : List JsValue) :
    setCursorPos .disableCppExceptions os (a :: b :: rest) s =
      { completion :=
          if a.isNumber && b.isNumber then
            .returns (.boolean
              ((os.SetCursorPos (coerceInt32 a) (coerceInt32 b) s).1 == TRUE))
          else .throws .numberExpected,
        calls := [.SetCursorPos (coerceInt32 a) (coerceInt32 b)],
        os := (os.SetCursorPos (coerceInt32 a) (coerceInt32 b) s).2 } := by
  have h : ¬ (a :: b :: rest).length < 2 := by simp
  simp only [setCursorPos, SetCursorPosWrapped, if_neg h, Int32Value_eq]
  cases ha : a.isNumber <;> cases hb : b.isNumber <;>
    simp [invoke, arg, ha, hb, numberExpectedFailure, callSetCursorPos, Bind.bind, Native.bind,
      Pure.pure, coerceInt32_of_not_number]

theorem mouseEvent_disable {σ : Type} (os : OS σ) (s : σ) (a b c d : JsValue)
    (rest : List JsValue) :
    mouseEvent .disableCppExceptions os (a :: b :: c :: d :: rest) s =
      { completion :=
          if a.isNumber && b.isNumber && c.isNumber && d.isNumber then .returns .undefined
          else .throws .numberExpected,
        calls := [.mouse_event (coerceUint32 a) (coerceInt32 b) (coerceInt32 c)
          (coerceUint32 d) 0],
        os := os.mouse_event (coerceUint32 a) (coerceInt32 b) (coerceInt32 c)
          (coerceUint32 d) 0 s } := by
  have h : ¬ (a :: b :: c :: d :: rest).length < 4 := by simp
  simp only [mouseEvent, MouseEventWrapped, if_neg h, Int32Value_eq, Uint32Value_eq]
  cases ha : a.isNumber <;> cases hb : b.isNumber <;> cases hc : c.isNumber <;>
    cases hd : d.isNumber <;>
    simp [invoke, arg, ha, hb, hc, hd, numberExpectedFailure, callMouseEvent, Bind.bind,
      Native.bind, Pure.pure, coerceInt32_of_not_number, coerceUint32_of_not_number]

theorem keybdEvent_disable {σ : Type} (os : OS σ) (s : σ) (a b : JsValue)
    (rest : List JsValue) :
    keybdEvent .disableCppExceptions os (a :: b :: rest) s =
      { completion :=
          if a.isNumber && b.isNumber then .returns .undefined else .throws .numberExpected,
        calls := [.keybd_event (castBYTE (coerceUint32 a)) 0 (coerceUint32 b) 0],
        os := os.keybd_event (castBYTE (coerceUint32 a)) 0 (coerceUint32 b) 0 s } := by
  have h : ¬ (a :: b :: rest).length < 2 := by simp
  simp only [keybdEvent, KeybdEventWrapped, if_neg h, Uint32Value_eq]
  cases ha : a.isNumber <;> cases hb : b.isNumber <;>
    simp [invoke, arg, ha, hb, numberExpectedFailure, callKeybdEvent, Bind.bind, Native.bind,
      Pure.pure, coerceUint32_of_not_number]

/-- With C++ exceptions, a required argument that is not a number ends
setCursorPos before the OS call. -/
theorem setCursorPos_cpp_not_number {σ : Type} (os : OS σ) (s : σ) (a b : JsValue)
    (rest : List JsValue) (hn : (a.isNumber && b.isNumber) = false) :
    setCursorPos .cppExceptions os (a :: b :: rest) s =
      { completion := .throws .numberExpected, calls := [], os := s } := by
  have h : ¬ (a :: b :: rest).length < 2 := by simp
  simp only [setCursorPos, SetCursorPosWrapped, if_neg h, Int32Value_eq]
  cases ha : a.isNumber <;> cases hb : b.isNumber <;>
    simp_all [invoke, arg, numberExpectedFailure, callSetCursorPos, Bind.bind, Native.bind,
      Pure.pure]

theorem mouseEvent_cpp_not_number {σ : Type} (os : OS σ) (s : σ) (a b c d : JsValue)
    (rest : List JsValue)
    (hn : (a.isNumber && b.isNumber && c.isNumber && d.isNumber) = false) :
    mouseEvent .cppExceptions os (a :: b :: c :: d :: rest) s =
      { completion := .throws .numberExpected, calls := [], os := s } := by
  have h : ¬ (a :: b :: c :: d :: rest).length < 4 := by simp
  simp only [mouseEvent, MouseEventWrapped, if_neg h, Int32Value_eq, Uint32Value_eq]
  cases ha : a.isNumber <;> cases hb : b.isNumber <;> cases hc : c.isNumber <;>
    cases hd : d.isNumber <;>
    simp_all [invoke, arg, numberExpectedFailure, callMouseEvent, Bind.bind, Native.bind,
      Pure.pure]

theorem keybdEvent_cpp_not_number {σ : Type} (os : OS σ) (s : σ) (a b : JsValue)
    (rest : List JsValue) (hn : (a.isNumber && b.isNumber) = false) :
    keybdEvent .cppExceptions os (a :: b :: rest) s =
      { completion := .throws .numberExpected, calls := [], os := s } := by
  have h : ¬ (a :: b :: rest).length < 2 := by simp
  simp only [keybdEvent, KeybdEventWrapped, if_neg h, Uint32Value_eq]
  cases ha : a.isNumber <;> cases hb : b.isNumber <;>
    simp_all [invoke, arg, numberExpectedFailure, callKeybdEvent, Bind.bind, Native.bind,
      Pure.pure]

/-! ## Module initialisation -/

theorem JsObject.Get_Set_self (o : JsObject) (key : String) (v : JsValue) :
    (o.Set key v).Get key = some v := by
  unfold JsObject.Set
  split
  · rename_i h
    induction o with
    | nil => simp at h
    | cons p ps ih =>
      by_cases hp : p.1 = key
      · simp [JsObject.Get, hp]
      · have h2 : List.any ps (fun p => p.1 == key) = true := by
          simpa [hp] using h
        have := ih h2
        simp only [JsObject.Get] at this ⊢
        simpa [hp] using this
  · rename_i h
    induction o with
    | nil => simp [JsObject.Get]
    | cons p ps ih =>
      have hp : ¬ p.1 = key := by
        intro hp; apply h; simp [hp]
      have h2 : ¬ List.any ps (fun p => p.1 == key) = true := by
        intro h2; apply h; simp only [List.any_cons, h2, Bool.or_true]
      have := ih h2
      simp only [JsObject.Get] at this ⊢
      simpa [hp] using this

theorem JsObject.Get_map_of_ne (o : JsObject) (key other : String) (v : JsValue)
    (hne : other ≠ key) :
    JsObject.Get (o.map (fun p => if p.1 == key then (key, v) else p)) other = o.Get other := by
  have hne2 : ¬ key = other := fun h => hne h.symm
  induction o with
  | nil => rfl
  | cons p ps ih =>
    simp only [JsObject.Get] at ih
    by_cases hp : p.1 = key
    · have hpo : ¬ p.1 = other := by rw [hp]; exact hne2
      simp only [JsObject.Get, List.map_cons, hp, beq_self_eq_true, if_true]
      rw [List.find?_cons_of_neg _ (by simpa using hne2),
        List.find?_cons_of_neg _ (by simpa using hpo)]
      exact ih
    · have hk : (p.1 == key) = false := by simpa using hp
      simp only [JsObject.Get, List.map_cons, hk, Bool.false_eq_true, if_false]
      by_cases hpo : p.1 = other
      · rw [List.find?_cons_of_pos _ (by simpa using hpo),
          List.find?_cons_of_pos _ (by simpa using hpo)]
      · rw [List.find?_cons_of_neg _ (by simpa using hpo),
          List.find?_cons_of_neg _ (by simpa using hpo)]
        exact ih

theorem JsObject.Get_append_of_ne (o : JsObject) (key other : String) (v : JsValue)
    (hne : other ≠ key) : JsObject.Get (o ++ [(key, v)]) other = o.Get other := by
  have hne2 : ¬ key = other := fun h => hne h.symm
  induction o with
  | nil => simp [JsObject.Get, hne2]
  | cons p ps ih =>
    simp only [JsObject.Get] at ih
    simp only [JsObject.Get, List.cons_append]
    by_cases hpo : p.1 = other
    · rw [List.find?_cons_of_pos _ (by simpa using hpo),
        List.find?_cons_of_pos _ (by simpa using hpo)]
    · rw [List.find?_cons_of_neg _ (by simpa using hpo),
        List.find?_cons_of_neg _ (by simpa using hpo)]
      exact ih

theorem JsObject.Get_Set_of_ne (o : JsObject) (key other : String) (v : JsValue)
    (hne : other ≠ key) : (o.Set key v).Get other = o.Get other := by
  unfold JsObject.Set
  split
  · exact JsObject.Get_map_of_ne o key other v hne
  · exact JsObject.Get_append_of_ne o key other v hne

theorem JsObject.any_key_iff (o : JsObject) (key : String) :
    (List.any o (fun p => p.1 == key) = true) ↔ key ∈ o.keys := by
  constructor
  · intro h
    obtain ⟨p, hp, hk⟩ := List.any_eq_true.mp h
    exact List.mem_map.mpr ⟨p, hp, by simpa using hk⟩
  · intro h
    obtain ⟨p, hp, hk⟩ := List.mem_map.mp h
    exact List.any_eq_true.mpr ⟨p, hp, by simpa using hk⟩

theorem JsObject.keys_Set (o : JsObject) (key : String) (v : JsValue) :
    (o.Set key v).keys = if key ∈ o.keys then o.keys else o.keys ++ [key] := by
  unfold JsObject.Set
  by_cases h : key ∈ o.keys
  · rw [if_pos ((JsObject.any_key_iff o key).mpr h), if_pos h]
    simp only [JsObject.keys, List.map_map]
    apply List.map_congr_left
    intro p _
    by_cases hp : p.1 = key <;> simp [hp]
  · rw [if_neg (fun h2 => h ((JsObject.any_key_iff o key).mp h2)), if_neg h]
    simp [JsObject.keys]

/-- C9: Init makes setCursorPos, mouseEvent and keybdEvent properties of the
exports object, each bound to the function of its own wrapper, so that calling
the property runs that entry point; from an empty exports object these three
names are all it has afterwards; in general every name present afterwards is
one of the three or was there before, and a property under any other name keeps
its value. -/
theorem Init_registers_three_entry_points {σ : Type} (build : Build) (os : OS σ) (s : σ)
    (info : List JsValue) (exports : JsObject) (name : String) :
    ((Init exports).Get "setCursorPos" = some (.func .SetCursorPosWrapped) ∧
      (Init exports).Get "mouseEvent" = some (.func .MouseEventWrapped) ∧
      (Init exports).Get "keybdEvent" = some (.func .KeybdEventWrapped)) ∧
    ((Init exports).call "setCursorPos" build os info s = some (setCursorPos build os info s) ∧
      (Init exports).call "mouseEvent" build os info s = some (mouseEvent build os info s) ∧
      (Init exports).call "keybdEvent" build os info s = some (keybdEvent build os info s)) ∧
    (Init []).keys = ["setCursorPos", "mouseEvent", "keybdEvent"] ∧
    (name ∈ (Init exports).keys →
      name ∈ exports.keys ∨ name ∈ ["setCursorPos", "mouseEvent", "keybdEvent"]) ∧
    (name ∉ ["setCursorPos", "mouseEvent", "keybdEvent"] →
      (Init exports).Get name = exports.Get name) := by
  have h1 : (Init exports).Get "setCursorPos" = some (.func .SetCursorPosWrapped) := by
    simp only [Init]
    rw [JsObject.Get_Set_of_ne _ _ _ _ (by decide), JsObject.Get_Set_of_ne _ _ _ _ (by decide),
      JsObject.Get_Set_self]
  have h2 : (Init exports).Get "mouseEvent" = some (.func .MouseEventWrapped) := by
    simp only [Init]
    rw [JsObject.Get_Set_of_ne _ _ _ _ (by decide), JsObject.Get_Set_self]
  have h3 : (Init exports).Get "keybdEvent" = some (.func .KeybdEventWrapped) := by
    simp only [Init]
    rw [JsObject.Get_Set_self]
  refine ⟨⟨h1, h2, h3⟩, ⟨?_, ?_, ?_⟩, ?_, ?_, ?_⟩
  · simp only [JsObject.call, h1]; rfl
  · simp only [JsObject.call, h2]; rfl
  · simp only [JsObject.call, h3]; rfl
  · decide
  · simp only [Init, JsObject.keys_Set]
    intro h
    split_ifs at h <;> simp at h ⊢ <;> tauto
  · intro h
    simp only [List.mem_cons, List.mem_singleton, List.not_mem_nil, or_false, not_or] at h
    simp only [Init]
    rw [JsObject.Get_Set_of_ne _ _ _ _ h.2.2, JsObject.Get_Set_of_ne _ _ _ _ h.2.1,
      JsObject.Get_Set_of_ne _ _ _ _ h.1]

/-- C9 at a concrete exports object that already has a property `version`: the
property keeps its value, and `version` is the only name besides the three. -/
theorem Init_registers_three_entry_points_witness :
    (Init [("version", .int 1)]).Get "version" = some (.int 1) ∧
    ("version" ∈ JsObject.keys [("version", .int 1)] ∨
      "version" ∈ ["setCursorPos", "mouseEvent", "keybdEvent"]) :=
  ⟨((Init_registers_three_entry_points .cppExceptions (constOS 1) () []
      [("version", .int 1)] "version").2.2.2.2 (by decide)).trans (by simp [JsObject.Get]),
   (Init_registers_three_entry_points .cppExceptions (constOS 1) () []
      [("version", .int 1)] "version").2.2.2.1 (by simp [Init, JsObject.Set, JsObject.keys])⟩

/-! ## Every call with enough arguments -/

/-- How setCursorPos completes when it has its two arguments. -/
theorem setCursorPos_completion_of_enough {σ : Type} (build : Build) (os : OS σ) (s : σ)
    (a b : JsValue) (rest : List JsValue) :
    (setCursorPos build os (a :: b :: rest) s).completion =
      if a.isNumber && b.isNumber then
        .returns (.boolean ((os.SetCursorPos (coerceInt32 a) (coerceInt32 b) s).1 == TRUE))
      else .throws .numberExpected := by
  cases build with
  | disableCppExceptions => rw [setCursorPos_disable]
  | cppExceptions =>
    cases h : (a.isNumber && b.isNumber) with
    | false => rw [setCursorPos_cpp_not_number os s a b rest h]; rfl
    | true =>
      rw [Bool.and_eq_true] at h
      obtain ⟨x, rfl⟩ := isNumber_eq_true h.1
      obtain ⟨y, rfl⟩ := isNumber_eq_true h.2
      rw [setCursorPos_numbers]; rfl

theorem mouseEvent_completion_of_enough {σ : Type} (build : Build) (os : OS σ) (s : σ)
    (a b c d : JsValue) (rest : List JsValue) :
    (mouseEvent build os (a :: b :: c :: d :: rest) s).completion =
      if a.isNumber && b.isNumber && c.isNumber && d.isNumber then .returns .undefined
      else .throws .numberExpected := by
  cases build with
  | disableCppExceptions => rw [mouseEvent_disable]
  | cppExceptions =>
    cases h : (a.isNumber && b.isNumber && c.isNumber && d.isNumber) with
    | false => rw [mouseEvent_cpp_not_number os s a b c d rest h]; rfl
    | true =>
      simp only [Bool.and_eq_true] at h
      obtain ⟨x, rfl⟩ := isNumber_eq_true h.1.1.1
      obtain ⟨y, rfl⟩ := isNumber_eq_true h.1.1.2
      obtain ⟨z, rfl⟩ := isNumber_eq_true h.1.2
      obtain ⟨w, rfl⟩ := isNumber_eq_true h.2
      rw [mouseEvent_numbers]; rfl

theorem keybdEvent_completion_of_enough {σ : Type} (build : Build) (os : OS σ) (s : σ)
    (a b : JsValue) (rest : List JsValue) :
    (keybdEvent build os (a :: b :: rest) s).completion =
      if a.isNumber && b.isNumber then .returns .undefined else .throws .numberExpected := by
  cases build with
  | disableCppExceptions => rw [keybdEvent_disable]
  | cppExceptions =>
    cases h : (a.isNumber && b.isNumber) with
    | false => rw [keybdEvent_cpp_not_number os s a b rest h]; rfl
    | true =>
      rw [Bool.and_eq_true] at h
      obtain ⟨x, rfl⟩ := isNumber_eq_true h.1
      obtain ⟨y, rfl⟩ := isNumber_eq_true h.2
      rw [keybdEvent_numbers]; rfl

/-- The OS calls of setCursorPos when it has its two arguments. -/
theorem setCursorPos_calls_of_enough {σ : Type} (build : Build) (os : OS σ) (s : σ)
    (a b : JsValue) (rest : List JsValue) :
    (setCursorPos build os (a :: b :: rest) s).calls =
      if build = .cppExceptions ∧ (a.isNumber && b.isNumber) = false then []
      else [.SetCursorPos (coerceInt32 a) (coerceInt32 b)] := by
  cases build with
  | disableCppExceptions => rw [setCursorPos_disable]; simp
  | cppExceptions =>
    cases h : (a.isNumber && b.isNumber) with
    | false => rw [setCursorPos_cpp_not_number os s a b rest h]; simp
    | true =>
      rw [Bool.and_eq_true] at h
      obtain ⟨x, rfl⟩ := isNumber_eq_true h.1
      obtain ⟨y, rfl⟩ := isNumber_eq_true h.2
      rw [setCursorPos_numbers]; simp [coerceInt32]

theorem mouseEvent_calls_of_enough {σ : Type} (build : Build) (os : OS σ) (s : σ)
    (a b c d : JsValue) (rest : List JsValue) :
    (mouseEvent build os (a :: b :: c :: d :: rest) s).calls =
      if build = .cppExceptions ∧
          (a.isNumber && b.isNumber && c.isNumber && d.isNumber) = false then []
      else [.mouse_event (coerceUint32 a) (coerceInt32 b) (coerceInt32 c) (coerceUint32 d) 0] := by
  cases build with
  | disableCppExceptions => rw [mouseEvent_disable]; simp
  | cppExceptions =>
    cases h : (a.isNumber && b.isNumber && c.isNumber && d.isNumber) with
    | false => rw [mouseEvent_cpp_not_number os s a b c d rest h]; simp
    | true =>
      simp only [Bool.and_eq_true] at h
      obtain ⟨x, rfl⟩ := isNumber_eq_true h.1.1.1
      obtain ⟨y, rfl⟩ := isNumber_eq_true h.1.1.2
      obtain ⟨z, rfl⟩ := isNumber_eq_true h.1.2
      obtain ⟨w, rfl⟩ := isNumber_eq_true h.2
      rw [mouseEvent_numbers]; simp [coerceInt32, coerceUint32]

theorem keybdEvent_calls_of_enough {σ : Type} (build : Build) (os : OS σ) (s : σ)
    (a b : JsValue) (rest : List JsValue) :
    (keybdEvent build os (a :: b :: rest) s).calls =
      if build = .cppExceptions ∧ (a.isNumber && b.isNumber) = false then []
      else [.keybd_event (castBYTE (coerceUint32 a)) 0 (coerceUint32 b) 0] := by
  cases build with
  | disableCppExceptions => rw [keybdEvent_disable]; simp
  | cppExceptions =>
    cases h : (a.isNumber && b.isNumber) with
    | false => rw [keybdEvent_cpp_not_number os s a b rest h]; simp
    | true =>
      rw [Bool.and_eq_true] at h
      obtain ⟨x, rfl⟩ := isNumber_eq_true h.1
      obtain ⟨y, rfl⟩ := isNumber_eq_true h.2
      rw [keybdEvent_numbers]; simp [coerceUint32]

/-! ## The guard and the types of the arguments -/

/-- C8 fails: a string or null in place of a required number passes the guard
of every entry point. Built with C++ exceptions disabled, setCursorPos("left", 5),
mouseEvent(1, null, 3, 4) and keybdEvent("A", 0) each call their OS primitive
with 0, the value coerced from that argument; built with C++ exceptions,
setCursorPos("left", 5) ends with the number-expected error of the conversion,
not with the TypeError of the guard. -/
theorem non_number_argument_passes_the_guard :
    setCursorPos .disableCppExceptions (constOS 1) [.string "left", .int 5] () =
      { completion := .throws .numberExpected, calls := [.SetCursorPos 0 5], os := () } ∧
    mouseEvent .disableCppExceptions (constOS 1) [.int 1, .null, .int 3, .int 4] () =
      { completion := .throws .numberExpected, calls := [.mouse_event 1 0 3 4 0],
        os := () } ∧
    keybdEvent .disableCppExceptions (constOS 1) [.string "A", .int 0] () =
      { completion := .throws .numberExpected, calls := [.keybd_event 0 0 0 0], os := () } ∧
    (setCursorPos .cppExceptions (constOS 1) [.string "left", .int 5] ()).completion =
      .throws .numberExpected := by
  refine ⟨?_, ?_, ?_, ?_⟩
  · rw [setCursorPos_disable]
    simp only [JsValue.isNumber, JsValue.int, coerceInt32, toInt32_int]
    rfl
  · rw [mouseEvent_disable]
    simp only [JsValue.isNumber, JsValue.int, coerceInt32, coerceUint32, toInt32_int,
      toUint32_int]
    rfl
  · rw [keybdEvent_disable]
    simp only [JsValue.isNumber, JsValue.int, coerceUint32, toUint32_int, castBYTE]
    rfl
  · rw [setCursorPos_completion_of_enough]
    simp [JsValue.isNumber]

/-- C8 (amended): the guard of each entry point checks the argument count only.
A call with enough arguments never ends with the TypeError of the guard,
whatever the types of its arguments. When a required argument is not a number,
its Node-API conversion fails and the call throws the number-expected error:
built with C++ exceptions the call stops there, with no OS call and the OS
state untouched; built with C++ exceptions disabled the conversion yields 0 and
the OS primitive is still called once, with 0 in place of that argument. -/
theorem guard_checks_argument_count_only {σ : Type} (build : Build) (os : OS σ) (s : σ)
    (a b c d : JsValue) (rest : List JsValue) :
    ((setCursorPos build os (a :: b :: rest) s).completion ≠
        .throws (.typeError "Expected x and y") ∧
      (mouseEvent build os (a :: b :: c :: d :: rest) s).completion ≠
        .throws (.typeError "Expected flag, dx, dy, data") ∧
      (keybdEvent build os (a :: b :: rest) s).completion ≠
        .throws (.typeError "Expected vk and flags")) ∧
    ((a.isNumber && b.isNumber) = false →
      setCursorPos .cppExceptions os (a :: b :: rest) s =
        { completion := .throws .numberExpected, calls := [], os := s } ∧
      keybdEvent .cppExceptions os (a :: b :: rest) s =
        { completion := .throws .numberExpected, calls := [], os := s } ∧
      (setCursorPos .disableCppExceptions os (a :: b :: rest) s).completion =
        .throws .numberExpected ∧
      (setCursorPos .disableCppExceptions os (a :: b :: rest) s).calls =
        [.SetCursorPos (coerceInt32 a) (coerceInt32 b)] ∧
      (keybdEvent .disableCppExceptions os (a :: b :: rest) s).completion =
        .throws .numberExpected ∧
      (keybdEvent .disableCppExceptions os (a :: b :: rest) s).calls =
        [.keybd_event (castBYTE (coerceUint32 a)) 0 (coerceUint32 b) 0]) ∧
    ((a.isNumber && b.isNumber && c.isNumber && d.isNumber) = false →
      mouseEvent .cppExceptions os (a :: b :: c :: d :: rest) s =
        { completion := .throws .numberExpected, calls := [], os := s } ∧
      (mouseEvent .disableCppExceptions os (a :: b :: c :: d :: rest) s).completion =
        .throws .numberExpected ∧
      (mouseEvent .disableCppExceptions os (a :: b :: c :: d :: rest) s).calls =
        [.mouse_event (coerceUint32 a) (coerceInt32 b) (coerceInt32 c) (coerceUint32 d) 0]) := by
  refine ⟨⟨?_, ?_, ?_⟩, fun h => ⟨?_, ?_, ?_, ?_, ?_, ?_⟩, fun h => ⟨?_, ?_, ?_⟩⟩
  · rw [setCursorPos_completion_of_enough]; split <;> simp
  · rw [mouseEvent_completion_of_enough]; split <;> simp
  · rw [keybdEvent_completion_of_enough]; split <;> simp
  · exact setCursorPos_cpp_not_number os s a b rest h
  · exact keybdEvent_cpp_not_number os s a b rest h
  · rw [setCursorPos_completion_of_enough, h]; rfl
  · rw [setCursorPos_disable]
  · rw [keybdEvent_completion_of_enough, h]; rfl
  · rw [keybdEvent_disable]
  · exact mouseEvent_cpp_not_number os s a b c d rest h
  · rw [mouseEvent_completion_of_enough, h]; rfl
  · rw [mouseEvent_disable]

/-- C8 (amended) at concrete calls: built with C++ exceptions, setCursorPos("left", 5)
and mouseEvent(1, null, 3, 4) throw the number-expected error and make no OS
call. -/
theorem guard_checks_argument_count_only_witness :
    setCursorPos .cppExceptions (constOS 1) [.string "left", .int 5] () =
      { completion := .throws .numberExpected, calls := [], os := () } ∧
    mouseEvent .cppExceptions (constOS 1) [.int 1, .null, .int 3, .int 4] () =
      { completion := .throws .numberExpected, calls := [], os := () } :=
  ⟨((guard_checks_argument_count_only .cppExceptions (constOS 1) () (.string "left") (.int 5)
      .null .null []).2.1 rfl).1,
   ((guard_checks_argument_count_only .cppExceptions (constOS 1) () (.int 1) .null (.int 3)
      (.int 4) []).2.2 rfl).1⟩

/-! ## One attempt per call -/

/-- C10 fails: built with C++ exceptions, setCursorPos("left", 5) has its two
arguments, so it passes the argument-count guard, and it makes no OS call: the
conversion of "left" throws before SetCursorPos is reached. -/
theorem call_past_the_guard_without_os_call :
    ¬ ([JsValue.string "left", JsValue.int 5].length < 2) ∧
    (setCursorPos .cppExceptions (constOS 1) [.string "left", .int 5] ()).calls = [] ∧
    (setCursorPos .cppExceptions (constOS 1) [.string "left", .int 5] ()).completion ≠
      .throws (.typeError "Expected x and y") := by
  refine ⟨by decide, ?_, ?_⟩
  · rw [setCursorPos_calls_of_enough]; simp [JsValue.isNumber]
  · rw [setCursorPos_completion_of_enough]; simp [JsValue.isNumber]

/-- C10 (amended): a call that passes the argument-count guard and whose
required arguments are numbers makes exactly one OS call, to the primitive of
its entry point; built with C++ exceptions disabled, so does every call that
passes the guard. No call, whatever its arguments, makes more than one OS call
or calls another primitive. The OS call depends only on the arguments of the
call, and its result only on them and on the answer of the OS: two invocations
with the same arguments, over any two OS states, make the same OS call, and
complete the same way (for setCursorPos, when the OS gives both the same
`BOOL`). -/
theorem one_os_call_per_call_with_numbers {σ τ : Type} (build : Build) (os : OS σ)
    (os2 : OS τ) (s : σ) (t : τ) (x y f dx dy data vk kf : JsNumber) (a b c d : JsValue)
    (rest info : List JsValue) :
    ((setCursorPos build os (.number x :: .number y :: rest) s).calls =
        [.SetCursorPos (toInt32 x) (toInt32 y)] ∧
      (mouseEvent build os (.number f :: .number dx :: .number dy :: .number data :: rest)
        s).calls = [.mouse_event (toUint32 f) (toInt32 dx) (toInt32 dy) (toUint32 data) 0] ∧
      (keybdEvent build os (.number vk :: .number kf :: rest) s).calls =
        [.keybd_event (castBYTE (toUint32 vk)) 0 (toUint32 kf) 0]) ∧
    ((setCursorPos .disableCppExceptions os (a :: b :: rest) s).calls =
        [.SetCursorPos (coerceInt32 a) (coerceInt32 b)] ∧
      (mouseEvent .disableCppExceptions os (a :: b :: c :: d :: rest) s).calls =
        [.mouse_event (coerceUint32 a) (coerceInt32 b) (coerceInt32 c) (coerceUint32 d) 0] ∧
      (keybdEvent .disableCppExceptions os (a :: b :: rest) s).calls =
        [.keybd_event (castBYTE (coerceUint32 a)) 0 (coerceUint32 b) 0]) ∧
    (((setCursorPos build os info s).calls = [] ∨
        ∃ X Y, (setCursorPos build os info s).calls = [.SetCursorPos X Y]) ∧
      ((mouseEvent build os info s).calls = [] ∨
        ∃ F X Y D E, (mouseEvent build os info s).calls = [.mouse_event F X Y D E]) ∧
      ((keybdEvent build os info s).calls = [] ∨
        ∃ V S F E, (keybdEvent build os info s).calls = [.keybd_event V S F E])) ∧
    ((setCursorPos build os info s).calls = (setCursorPos build os2 info t).calls ∧
      ((os.SetCursorPos (coerceInt32 (arg info 0)) (coerceInt32 (arg info 1)) s).1 =
          (os2.SetCursorPos (coerceInt32 (arg info 0)) (coerceInt32 (arg info 1)) t).1 →
        (setCursorPos build os info s).completion =
          (setCursorPos build os2 info t).completion) ∧
      (mouseEvent build os info s).calls = (mouseEvent build os2 info t).calls ∧
      (mouseEvent build os info s).completion = (mouseEvent build os2 info t).completion ∧
      (keybdEvent build os info s).calls = (keybdEvent build os2 info t).calls ∧
      (keybdEvent build os info s).completion = (keybdEvent build os2 info t).completion) := by
  refine ⟨⟨?_, ?_, ?_⟩, ⟨?_, ?_, ?_⟩, ⟨?_, ?_, ?_⟩, ⟨?_, ?_, ?_, ?_, ?_, ?_⟩⟩
  · rw [setCursorPos_numbers]
  · rw [mouseEvent_numbers]
  · rw [keybdEvent_numbers]
  · rw [setCursorPos_disable]
  · rw [mouseEvent_disable]
  · rw [keybdEvent_disable]
  · rcases info with _ | ⟨a, _ | ⟨b, rest⟩⟩
    · rw [setCursorPos_too_few build os s [] (by simp)]; exact Or.inl rfl
    · rw [setCursorPos_too_few build os s [a] (by simp)]; exact Or.inl rfl
    · rw [setCursorPos_calls_of_enough]
      split
      · exact Or.inl rfl
      · exact Or.inr ⟨_, _, rfl⟩
  · rcases info with _ | ⟨a, _ | ⟨b, _ | ⟨c, _ | ⟨d, rest⟩⟩⟩⟩
    · rw [mouseEvent_too_few build os s [] (by simp)]; exact Or.inl rfl
    · rw [mouseEvent_too_few build os s [a] (by simp)]; exact Or.inl rfl
    · rw [mouseEvent_too_few build os s [a, b] (by simp)]; exact Or.inl rfl
    · rw [mouseEvent_too_few build os s [a, b, c] (by simp)]; exact Or.inl rfl
    · rw [mouseEvent_calls_of_enough]
      split
      · exact Or.inl rfl
      · exact Or.inr ⟨_, _, _, _, _, rfl⟩
  · rcases info with _ | ⟨a, _ | ⟨b, rest⟩⟩
    · rw [keybdEvent_too_few build os s [] (by simp)]; exact Or.inl rfl
    · rw [keybdEvent_too_few build os s [a] (by simp)]; exact Or.inl rfl
    · rw [keybdEvent_calls_of_enough]
      split
      · exact Or.inl rfl
      · exact Or.inr ⟨_, _, _, _, rfl⟩
  · rcases info with _ | ⟨a, _ | ⟨b, rest⟩⟩
    · rw [setCursorPos_too_few build os s [] (by simp),
        setCursorPos_too_few build os2 t [] (by simp)]
    · rw [setCursorPos_too_few build os s [a] (by simp),
        setCursorPos_too_few build os2 t [a] (by simp)]
    · rw [setCursorPos_calls_of_enough, setCursorPos_calls_of_enough]
  · intro h
    rcases info with _ | ⟨a, _ | ⟨b, rest⟩⟩
    · rw [setCursorPos_too_few build os s [] (by simp),
        setCursorPos_too_few build os2 t [] (by simp)]
    · rw [setCursorPos_too_few build os s [a] (by simp),
        setCursorPos_too_few build os2 t [a] (by simp)]
    · have h2 : (os.SetCursorPos (coerceInt32 a) (coerceInt32 b) s).1 =
          (os2.SetCursorPos (coerceInt32 a) (coerceInt32 b) t).1 := h
      rw [setCursorPos_completion_of_enough, setCursorPos_completion_of_enough, h2]
  · rcases info with _ | ⟨a, _ | ⟨b, _ | ⟨c, _ | ⟨d, rest⟩⟩⟩⟩
    · rw [mouseEvent_too_few build os s [] (by simp),
        mouseEvent_too_few build os2 t [] (by simp)]
    · rw [mouseEvent_too_few build os s [a] (by simp),
        mouseEvent_too_few build os2 t [a] (by simp)]
    · rw [mouseEvent_too_few build os s [a, b] (by simp),
        mouseEvent_too_few build os2 t [a, b] (by simp)]
    · rw [mouseEvent_too_few build os s [a, b, c] (by simp),
        mouseEvent_too_few build os2 t [a, b, c] (by simp)]
    · rw [mouseEvent_calls_of_enough, mouseEvent_calls_of_enough]
  · rcases info with _ | ⟨a, _ | ⟨b, _ | ⟨c, _ | ⟨d, rest⟩⟩⟩⟩
    · rw [mouseEvent_too_few build os s [] (by simp),
        mouseEvent_too_few build os2 t [] (by simp)]
    · rw [mouseEvent_too_few build os s [a] (by simp),
        mouseEvent_too_few build os2 t [a] (by simp)]
    · rw [mouseEvent_too_few build os s [a, b] (by simp),
        mouseEvent_too_few build os2 t [a, b] (by simp)]
    · rw [mouseEvent_too_few build os s [a, b, c] (by simp),
        mouseEvent_too_few build os2 t [a, b, c] (by simp)]
    · rw [mouseEvent_completion_of_enough, mouseEvent_completion_of_enough]
  · rcases info with _ | ⟨a, _ | ⟨b, rest⟩⟩
    · rw [keybdEvent_too_few build os s [] (by simp),
        keybdEvent_too_few build os2 t [] (by simp)]
    · rw [keybdEvent_too_few build os s [a] (by simp),
        keybdEvent_too_few build os2 t [a] (by simp)]
    · rw [keybdEvent_calls_of_enough, keybdEvent_calls_of_enough]
  · rcases info with _ | ⟨a, _ | ⟨b, rest⟩⟩
    · rw [keybdEvent_too_few build os s [] (by simp),
        keybdEvent_too_few build os2 t [] (by simp)]
    · rw [keybdEvent_too_few build os s [a] (by simp),
        keybdEvent_too_few build os2 t [a] (by simp)]
    · rw [keybdEvent_completion_of_enough, keybdEvent_completion_of_enough]

/-- C10 (amended) at a concrete pair of invocations: setCursorPos(1, 2) over the
fake OS completes the same way whether it is the first call or follows the call
setCursorPos(640, 480), the fake OS answering `TRUE` both times. -/
theorem one_os_call_per_call_with_numbers_witness :
    (setCursorPos .cppExceptions fakeOS [.int 1, .int 2] { cursor := (0, 0) }).completion =
      (setCursorPos .cppExceptions fakeOS [.int 1, .int 2]
        (setCursorPos .cppExceptions fakeOS [.int 640, .int 480]
          { cursor := (0, 0) }).os).completion :=
  (one_os_call_per_call_with_numbers .cppExceptions fakeOS fakeOS { cursor := (0, 0) }
    (setCursorPos .cppExceptions fakeOS [.int 640, .int 480] { cursor := (0, 0) }).os
    .nan .nan .nan .nan .nan .nan .nan .nan .null .null .null .null
    [] [.int 1, .int 2]).2.2.2.2.1 rfl

end WinInput
